import Mathlib

/-!
Shallow embedding of the bonk-mcp transaction-assembly and submission pipeline
(`src/bonk_mcp/utils.py` and `src/bonk_mcp/run_launch.py`), together with
theorems settling the specification's claims about it.

Network effects (RPC calls, HTTP uploads) are modelled as explicit outcome
values passed in as arguments; pure Python logic is translated line by line.
-/

namespace BonkMcp

/- ---------------- Python-semantics helpers ---------------- -/

/-- Python truthiness of an optional string: `None` and `""` are falsy. -/
def pyTruthyStr : Option String → Bool
  | none => false
  | some s => !s.isEmpty

/-- Python truthiness of optional bytes: `None` and `b""` are falsy. -/
def pyTruthyBytes : Option (List Nat) → Bool
  | none => false
  | some b => !b.isEmpty

/-- `o or ""`: the string content of an optional string, empty when absent. -/
def pyStr : Option String → String
  | none => ""
  | some s => s

/-- Python `str.startswith(pre)`. -/
def pyStartswith (s pre : String) : Bool := pre.data.isPrefixOf s.data

/-- The whitespace characters removed by Python `str.strip()`. -/
def pySpace (c : Char) : Bool :=
  [' ', '\t', '\n', '\r', Char.ofNat 11, Char.ofNat 12].contains c

/-- Python `str.strip()`. -/
def pyStrip (s : String) : String :=
  String.mk (((s.data.dropWhile pySpace).reverse.dropWhile pySpace).reverse)

/-- Occurrence of `pat` as a contiguous sublist (Python `pat in hay` on strings). -/
def listOccurs (pat : List Char) : List Char → Bool
  | [] => pat.isEmpty
  | c :: rest => pat.isPrefixOf (c :: rest) || listOccurs pat rest

/-- Python substring test `pat in hay`. -/
def strOccurs (pat hay : String) : Bool := listOccurs pat.data hay.data

/-- Python `int()` applied to a numeric value: truncation toward zero. -/
def pyInt (q : ℚ) : ℤ := Int.tdiv q.num (q.den : ℤ)

/- ---------------- Solana data model ---------------- -/

/-- A Solana public key.  `derived s1 s2 s3 prog` models the result of
`Pubkey.find_program_address([s1, s2, s3], prog)` — the external SHA-256
bump-seed search — injectively, since this code only ever compares derived
addresses for identity and only ever derives with the 3-seed ATA list
(utils.py line 58). -/
inductive Pubkey
  | named (s : String)
  | derived (seed1 seed2 seed3 : Pubkey) (programId : Pubkey)
deriving DecidableEq, Repr

/-- `solders.instruction.AccountMeta`. -/
structure AccountMeta where
  pubkey : Pubkey
  is_signer : Bool
  is_writable : Bool
deriving DecidableEq, Repr

/-- `solders.system_program.CreateAccountParams`. -/
structure CreateAccountParams where
  from_pubkey : Pubkey
  to_pubkey : Pubkey
  lamports : ℤ
  space : ℕ
  owner : Pubkey
deriving DecidableEq, Repr

/-- A Solana instruction: either built directly (`Instruction(prog, data, metas)`
in the source) or via the external `solders` builder `create_account`, kept
opaque as its own constructor. -/
inductive Instr
  | generic (programId : Pubkey) (data : List Nat) (accounts : List AccountMeta)
  | createAccount (params : CreateAccountParams)
deriving DecidableEq, Repr

/-- Modelled from the spec: `bonk_mcp.settings` is not under src/; the SPL token
program id it exports is a fixed opaque address. -/
def TOKEN_PROGRAM : Pubkey := .named "TOKEN_PROGRAM"

/-- Modelled from the spec: settings constant, the associated-token-account program id. -/
def ASSOC_TOKEN_ACC_PROG : Pubkey := .named "ASSOC_TOKEN_ACC_PROG"

/-- Modelled from the spec: settings constant, the system program id. -/
def SYSTEM_PROGRAM : Pubkey := .named "SYSTEM_PROGRAM"

/-- Modelled from the spec: settings constant, the rent sysvar address. -/
def RENT : Pubkey := .named "RENT"

/-- Modelled from the spec: settings constant, the wrapped-native (WSOL) mint. -/
def WSOL_TOKEN : Pubkey := .named "WSOL_TOKEN"

/-- Modelled from the spec: settings constant; the native currency has 9 decimals
(spec §4.6: lamports ÷ 10^9). -/
def SOL_DECIMAL : ℕ := 9

/-- utils.py line 30: SPL token `InitializeAccount` discriminator. -/
def SPL_TOKEN_INITIALIZE_ACCOUNT : List Nat := [1]

/-- utils.py line 31: SPL token `CloseAccount` discriminator. -/
def SPL_TOKEN_CLOSE_ACCOUNT : List Nat := [9]

/- ---------------- utils.py: ATA derivation + creation ---------------- -/

/-- utils.py lines 55-60: seeds are the bytes of owner, token program, mint;
the program is the associated-token-account program. -/
def get_associated_token_address (owner mint : Pubkey) : Pubkey :=
  Pubkey.derived owner TOKEN_PROGRAM mint ASSOC_TOKEN_ACC_PROG

/-- utils.py lines 63-88. -/
def create_associated_token_account_instruction (payer owner mint : Pubkey) :
    Pubkey × Instr :=
  let ata := get_associated_token_address owner mint
  (ata,
   Instr.generic ASSOC_TOKEN_ACC_PROG []
     [⟨payer, true, true⟩,
      ⟨ata, false, true⟩,
      ⟨owner, false, false⟩,
      ⟨mint, false, false⟩,
      ⟨SYSTEM_PROGRAM, false, false⟩,
      ⟨TOKEN_PROGRAM, false, false⟩,
      ⟨RENT, false, false⟩])

/-- Outcome of `client.get_account_info(ata)`: an exception, or a response whose
`.value` is `none` (account absent) or `some info` (account exists; the info
payload is irrelevant to this code, modelled as a number). -/
inductive AccInfoOutcome
  | exn
  | ok (value : Option Nat)
deriving DecidableEq, Repr

/-- utils.py lines 91-112: return the ATA with no instruction when the account
already exists; on a missing account or a swallowed query exception, return the
creation instruction. -/
def create_or_get_token_account (payer owner mint : Pubkey) (info : AccInfoOutcome) :
    Pubkey × Option Instr :=
  let ata := get_associated_token_address owner mint
  match info with
  | .ok (some _) => (ata, none)
  | _ =>
    let p := create_associated_token_account_instruction payer owner mint
    (p.1, some p.2)

/-- utils.py lines 347-362. -/
def get_close_wsol_instruction (wsol_token_account owner : Pubkey) : Instr :=
  Instr.generic TOKEN_PROGRAM SPL_TOKEN_CLOSE_ACCOUNT
    [⟨wsol_token_account, false, true⟩,
     ⟨owner, false, true⟩,
     ⟨owner, true, false⟩]

/-- `solders.keypair.Keypair`, reduced to its public key (the secret half never
influences the values this code returns). -/
structure Keypair where
  pubkey : Pubkey
deriving DecidableEq, Repr

/-- Outcome of `client.get_minimum_balance_for_rent_exemption(165)`. -/
inductive RentOutcome
  | ok (v : ℤ)
  | exn
deriving DecidableEq, Repr

/-- utils.py lines 301-344.  The freshly generated `Keypair()` and the RPC rent
query are environment inputs. -/
def create_temporary_wsol_account (payer_pubkey : Pubkey) (amount : ℚ)
    (wsol_keypair : Keypair) (rent : RentOutcome) :
    Pubkey × List Instr × Keypair :=
  let wsol_token_account := wsol_keypair.pubkey
  let min_rent : ℤ :=
    match rent with
    | .ok v => v
    | .exn => 2039280
  let lamports : ℤ := min_rent + pyInt (amount * 10 ^ SOL_DECIMAL)
  (wsol_token_account,
   [Instr.createAccount ⟨payer_pubkey, wsol_token_account, lamports, 165, TOKEN_PROGRAM⟩,
    Instr.generic TOKEN_PROGRAM SPL_TOKEN_INITIALIZE_ACCOUNT
      [⟨wsol_token_account, false, true⟩,
       ⟨WSOL_TOKEN, false, false⟩,
       ⟨payer_pubkey, false, false⟩,
       ⟨RENT, false, false⟩]],
   wsol_keypair)

/- ---------------- utils.py: submission pipeline ---------------- -/

/-- Outcome of one `client.send_transaction` call. -/
inductive SendOutcome
  | ok (sig : String)
  | err (msg : String)
deriving DecidableEq, Repr

/-- What `send_and_confirm_transaction` produces: a signature, a confirmation
status, the Python `False` sentinel, or a raised `NameError` escaping the
function. -/
inductive SendResult
  | sig (s : String)
  | confirmStatus (b : Bool)
  | failure
  | nameError
deriving DecidableEq, Repr

/-- utils.py line 136: rate-limit detection by substring match. -/
def rateLimitMsg (m : String) : Bool :=
  strOccurs "429" m || strOccurs "Too Many Requests" m

/-- The `for attempt in range(1, 4)` loop of utils.py lines 118-143, carrying
(fuel, attempt, backoff, submissions so far, sleeps so far).  `utils.py` never
imports `asyncio`, so the rate-limit branch's `await asyncio.sleep(backoff)`
(line 139) raises `NameError`, which propagates out of the function; the loop
therefore never reaches a second iteration.  Were the import present, the
`nameError` branch would instead be
`sendGo transport confirm cs fuel (attempt+1) (backoff*2) (sends+1) (sleeps ++ [backoff])`. -/
def sendGo (transport : ℕ → SendOutcome) (confirm : Bool) (cs : Bool) :
    ℕ → ℕ → ℕ → ℕ → List ℕ → SendResult × ℕ × List ℕ
  | 0, _, _, sends, sleeps => (.failure, sends, sleeps)
  | _ + 1, attempt, _, sends, sleeps =>
    match transport attempt with
    | .ok s =>
      if confirm then (.confirmStatus cs, sends + 1, sleeps)
      else (.sig s, sends + 1, sleeps)
    | .err m =>
      if rateLimitMsg m then
        if attempt == 3 then (.failure, sends + 1, sleeps)
        else (.nameError, sends + 1, sleeps)
      else (.failure, sends + 1, sleeps)

/-- utils.py lines 118-143.  `transport n` is the outcome of the n-th
`client.send_transaction` call, `cs` the status `client.confirm_transaction`
would report.  Returns (result, number of submissions, backoff sleeps). -/
def send_and_confirm_transaction (transport : ℕ → SendOutcome)
    (confirm : Bool) (cs : Bool) : SendResult × ℕ × List ℕ :=
  sendGo transport confirm cs 3 1 1 0 []

/- ---------------- utils.py: IPFS metadata uploader ---------------- -/

/-- Outcome of an upload POST: a transport exception, or a response with an
HTTP status, its body text, and the environment's model of `json.loads` on
that text — `none` for a `JSONDecodeError`, `some u` for a parsed object whose
`.get("url")` is `u`. -/
inductive HttpOutcome
  | exn
  | resp (status : ℕ) (text : String) (jsonUrl : Option (Option String))
deriving DecidableEq, Repr

/-- The metadata object built at utils.py lines 233-245. -/
structure Metadata where
  name : String
  symbol : String
  description : String
  createdOn : String
  image : String
  twitter : Option String
  telegram : Option String
  website : Option String
deriving DecidableEq, Repr

def createdOnTag : String := "https://bonk.fun"

def httpsPrefix : String := "https://"

def pinataPrefix : String := "https://sapphire-working-koi-276.mypinata.cloud/ipfs/"

def defaultImageUrl : String :=
  "https://sapphire-working-koi-276.mypinata.cloud/ipfs/bafybeihpy352xnqgn74nrjj6bgxndrss5nbqix4kfhwfanoyo766tgwzz4"

/-- utils.py lines 233-245. -/
def mkMetadata (name symbol description twitter telegram website image : String) :
    Metadata :=
  ⟨name, symbol, description, createdOnTag, image,
   if twitter.isEmpty then none else some twitter,
   if telegram.isEmpty then none else some telegram,
   if website.isEmpty then none else some website⟩

/-- The network environment of one `prepare_ipfs` call: the result of
`download_image(image_url)` (utils.py lines 149-160, `none` on non-200 or
exception), of `open(file).read()` (`none` when reading raises), and the two
upload POSTs. -/
structure IpfsEnv where
  downloadResult : Option (List Nat)
  fileRead : Option (List Nat)
  imgUpload : HttpOutcome
  metaUpload : HttpOutcome
deriving DecidableEq, Repr

/-- utils.py lines 180-192: pick the bytes to upload — `image_data` if truthy,
else the file contents (a read exception leaves them `None`), else the
downloaded bytes of `image_url`. -/
def dataToUpload (image_url : Option String) (image_data : Option (List Nat))
    (file : Option String) (env : IpfsEnv) : Option (List Nat) :=
  if pyTruthyBytes image_data then image_data
  else if pyTruthyStr file then env.fileRead
  else if pyTruthyStr image_url then env.downloadResult
  else none

/-- utils.py lines 174-231: resolve the `image_url` variable as it stands when
control reaches the metadata block.  `none` models the early `return None` at
line 228 (and, for `imgUpload = exn`, the transport exception reaching the
outer `except`); `some iu` means execution continues with `image_url = iu`. -/
def resolveImage (image_url : Option String) (image_data : Option (List Nat))
    (file : Option String) (env : IpfsEnv) : Option (Option String) :=
  if pyTruthyStr image_url && pyStartswith (pyStr image_url) pinataPrefix then
    some image_url
  else
    let d := dataToUpload image_url image_data file env
    if pyTruthyBytes d then
      match env.imgUpload with
      | .exn => none
      | .resp status text jsonUrl =>
        let iu : Option String :=
          if status == 200 then
            if pyStartswith text httpsPrefix then some (pyStrip text)
            else
              match jsonUrl with
              | some u => u
              | none => image_url
          else image_url
        if pyTruthyStr iu then some iu else none
    else
      some (if pyTruthyStr image_url then image_url else some defaultImageUrl)

/-- utils.py lines 258-277: POST the metadata, accept a bare `https://` body or
a JSON object with a truthy `url` field, otherwise return `None`. -/
def uploadMetaPhase (outcome : HttpOutcome) : Option String :=
  match outcome with
  | .exn => none
  | .resp status text jsonUrl =>
    if status == 200 then
      if pyStartswith text httpsPrefix then some (pyStrip text)
      else
        match jsonUrl with
        | some u => if pyTruthyStr u then u else none
        | none => none
    else none

/-- utils.py lines 163-280. -/
def prepare_ipfs (name symbol description twitter telegram website : String)
    (image_url : Option String) (image_data : Option (List Nat))
    (file : Option String) (env : IpfsEnv) : Option String :=
  match resolveImage image_url image_data file env with
  | none => none
  | some iu =>
    let _md := mkMetadata name symbol description twitter telegram website (pyStr iu)
    uploadMetaPhase env.metaUpload

/- ---------------- run_launch.py: balance oracle ---------------- -/

/-- Outcome of the `getTokenAccountsByOwner` POST of run_launch.py lines
114-127: a transport/shape exception, a response without a `result` field, or
a `result.value` list of per-account `uiAmount` entries (`none` = JSON null). -/
inductive TokenRpcOutcome
  | exn
  | noResult
  | result (value : List (Option ℚ))
deriving DecidableEq, Repr

/-- The `total` accumulation of run_launch.py lines 130-133. -/
def sumUiAmounts : List (Option ℚ) → ℚ
  | [] => 0
  | a :: rest => (match a with | some v => v | none => 0) + sumUiAmounts rest

/-- run_launch.py lines 110-138. -/
def get_token_balance (outcome : TokenRpcOutcome) : Option ℚ :=
  match outcome with
  | .exn => none
  | .noResult => some 0
  | .result value =>
    if value.isEmpty then some 0
    else some (sumUiAmounts value)

/- ---------------- run_launch.py: orchestrator ---------------- -/

/-- The binary64 value of the constant `INITIAL_BUY_SOL = 0.05`
(run_launch.py line 39): 0.05 rounds to 3602879701896397 × 2⁻⁵⁶. -/
def INITIAL_BUY_SOL : ℚ := 3602879701896397 / 2 ^ 56

/-- The binary64 value of the literal `0.1`: 3602879701896397 × 2⁻⁵⁵. -/
def fpPointOne : ℚ := 3602879701896397 / 2 ^ 55

/-- The binary64 evaluation of `INITIAL_BUY_SOL + 0.1` (run_launch.py line
189): the exact sum 10808639105689191 × 2⁻⁵⁶ has a 54-bit significand and
rounds (ties-to-even) to 5404319552844596 × 2⁻⁵⁵ = 0.15000000000000002…. -/
def buyPlusBuffer : ℚ := 5404319552844596 / 2 ^ 55

/-- The binary64 value of a fetched balance of 0.10 SOL
(`100000000 / 1e9` in run_launch.py line 104): the double nearest 0.1. -/
def fpBalance010 : ℚ := 3602879701896397 / 2 ^ 55

/-- The binary64 value of a fetched balance of 0.20 SOL: the double nearest 0.2. -/
def fpBalance020 : ℚ := 3602879701896397 / 2 ^ 54

/-- Environment of one `main()` run (run_launch.py lines 173-239): the fetched
wallet balance (as the exact value of the binary64 float), the metadata-upload
result, the `error` field of the launch result, and the buy outcome. -/
structure MainEnv where
  balance : ℚ
  ipfsUri : Option String
  launchError : Option String
  buySuccess : Bool
deriving DecidableEq, Repr

/-- The externally visible stages of `main()`, in program order. -/
inductive MainStep
  | validate
  | sslTest
  | fetchBalance
  | prepareIpfs
  | launch
  | initialBuy
  | fetchTokenBalance
  | done
deriving DecidableEq, Repr

/-- run_launch.py lines 173-239: the sequence of stages `main()` executes,
each `return` truncating the trace. -/
def mainTrace (env : MainEnv) : List MainStep :=
  [.validate, .sslTest, .fetchBalance] ++
  (if env.balance < buyPlusBuffer then []
   else
     MainStep.prepareIpfs ::
       (if pyTruthyStr env.ipfsUri then
          MainStep.launch ::
            (if pyTruthyStr env.launchError then []
             else
               MainStep.initialBuy ::
                 (if env.buySuccess then [MainStep.fetchTokenBalance, MainStep.done]
                  else []))
        else []))

/- ---------------- run_launch.py: top-level handler ---------------- -/

/-- How the `asyncio.run(main())` call at run_launch.py line 244 ends. -/
inductive MainOutcome
  | normal
  | keyboardInterrupt
  | exn (msg : String)
deriving DecidableEq, Repr

/-- Observable effects of the `__main__` handlers (run_launch.py lines 242-250). -/
inductive TopEffect
  | printCancelled
  | printFatal (msg : String)
  | printTraceback (msg : String)
deriving DecidableEq, Repr

/-- Result of the whole process: what was printed by the handlers, the process
exit status, and whether the exception escaped uncaught. -/
structure TopResult where
  effects : List TopEffect
  exitCode : ℕ
  uncaught : Bool
deriving DecidableEq, Repr

/-- run_launch.py lines 242-250: `KeyboardInterrupt` prints a cancel message;
any other exception is caught by the single `except Exception` handler, which
prints the fatal line and the full traceback and then falls off the end of the
script — the interpreter exits normally with status 0. -/
def topLevel : MainOutcome → TopResult
  | .normal => ⟨[], 0, false⟩
  | .keyboardInterrupt => ⟨[.printCancelled], 0, false⟩
  | .exn m => ⟨[.printFatal m, .printTraceback m], 0, false⟩

/- ---------------- fixed inputs used by witnesses and counterexamples ---------------- -/

def emptyStr : String := ""

def pkPayer : Pubkey := .named "payer"

def pkOwner : Pubkey := .named "owner"

def pkMint : Pubkey := .named "mint"

def refusedMsg : String := "connection refused"

def rateLimitText : String := "429 Too Many Requests"

def boomText : String := "boom"

/- ---------------- claims ---------------- -/

/-- C4: for every (payer, owner, mint), the instruction built by
`create_associated_token_account_instruction` has an empty payload and exactly
7 account references, in the fixed order payer (signer, writable), derived
associated account (writable), owner (readonly), mint (readonly), system
program (readonly), token program (readonly), rent sysvar (readonly); the
returned address is the derived associated token address. -/
theorem claim_C4_ata_layout (payer owner mint : Pubkey) :
    create_associated_token_account_instruction payer owner mint =
      (get_associated_token_address owner mint,
       Instr.generic ASSOC_TOKEN_ACC_PROG []
         [⟨payer, true, true⟩,
          ⟨get_associated_token_address owner mint, false, true⟩,
          ⟨owner, false, false⟩,
          ⟨mint, false, false⟩,
          ⟨SYSTEM_PROGRAM, false, false⟩,
          ⟨TOKEN_PROGRAM, false, false⟩,
          ⟨RENT, false, false⟩]) := rfl

/-- C5: the `InitializeAccount` payload is the single byte 1, the
`CloseAccount` payload the single byte 9, and for every (account, owner) the
close instruction lists exactly: account to close (writable, non-signer),
destination = owner (writable, non-signer), authority = owner (signer,
non-writable), in that order. -/
theorem claim_C5_discriminators_and_close (account owner : Pubkey) :
    SPL_TOKEN_INITIALIZE_ACCOUNT = [1] ∧
    SPL_TOKEN_CLOSE_ACCOUNT = [9] ∧
    get_close_wsol_instruction account owner =
      Instr.generic TOKEN_PROGRAM [9]
        [⟨account, false, true⟩, ⟨owner, false, true⟩, ⟨owner, true, false⟩] :=
  ⟨rfl, rfl, rfl⟩

/-- C8: for every (payer, amount), given the freshly generated keypair and the
rent query outcome, `create_temporary_wsol_account` returns the keypair's
address, exactly two instructions — a system account creation with lamports =
(RPC rent-exempt minimum, or the fallback 2039280 on a failed query) +
int(amount * 10^9), space 165 and owner = token program, then a token-program
`InitializeAccount` (payload byte 1) referencing the new account, the
wrapped-native mint and the owner — and the generated keypair itself. -/
theorem claim_C8_wsol_account (payer : Pubkey) (amount : ℚ) (kp : Keypair)
    (rent : RentOutcome) :
    create_temporary_wsol_account payer amount kp rent =
      (kp.pubkey,
       [Instr.createAccount
          ⟨payer, kp.pubkey,
           (match rent with | .ok v => v | .exn => 2039280) + pyInt (amount * 10 ^ 9),
           165, TOKEN_PROGRAM⟩,
        Instr.generic TOKEN_PROGRAM [1]
          [⟨kp.pubkey, false, true⟩, ⟨WSOL_TOKEN, false, false⟩,
           ⟨payer, false, false⟩, ⟨RENT, false, false⟩]],
       kp) := by
  cases rent <;> rfl

/-- C10: for every (payer, owner, mint), `create_or_get_token_account` returns
the associated token address of (owner, mint); paired with no instruction when
the account-info query reports an existing account, and with the creation
instruction when the account is absent or the query raised (the exception is
swallowed and treated as non-existence). -/
theorem claim_C10_create_or_get (payer owner mint : Pubkey) (info : AccInfoOutcome) :
    (create_or_get_token_account payer owner mint info).1 =
        get_associated_token_address owner mint ∧
    (∀ v, info = .ok (some v) →
        (create_or_get_token_account payer owner mint info).2 = none) ∧
    (info = .ok none ∨ info = .exn →
        (create_or_get_token_account payer owner mint info).2 =
          some (create_associated_token_account_instruction payer owner mint).2) := by
  refine ⟨?_, ?_, ?_⟩
  · cases info with
    | exn => rfl
    | ok v => cases v <;> rfl
  · rintro v rfl
    rfl
  · rintro (rfl | rfl) <;> rfl

/-- Witness for C10 at concrete addresses, in both the exists and the
swallowed-exception branches. -/
theorem claim_C10_witness :
    (create_or_get_token_account pkPayer pkOwner pkMint (.ok (some 7))).2 = none ∧
    (create_or_get_token_account pkPayer pkOwner pkMint .exn).2 =
      some (create_associated_token_account_instruction pkPayer pkOwner pkMint).2 :=
  ⟨(claim_C10_create_or_get pkPayer pkOwner pkMint (.ok (some 7))).2.1 7 rfl,
   (claim_C10_create_or_get pkPayer pkOwner pkMint .exn).2.2 (Or.inr rfl)⟩

/-- C7: `get_token_balance` returns the sum of the per-account `uiAmount`
values with nulls counted as zero (accounts 1.5 and null yield 1.5), returns
`None` exactly on a transport exception, and 0.0 when the owner holds no
accounts for the mint. -/
theorem claim_C7_token_balance (value : List (Option ℚ)) (outcome : TokenRpcOutcome) :
    get_token_balance (.result value) = some (sumUiAmounts value) ∧
    (get_token_balance outcome = none ↔ outcome = .exn) ∧
    get_token_balance (.result [some (3 / 2), none]) = some (3 / 2) ∧
    get_token_balance (.result []) = some 0 := by
  refine ⟨?_, ?_, by norm_num [get_token_balance, sumUiAmounts], rfl⟩
  · cases value with
    | nil => simp [get_token_balance, sumUiAmounts]
    | cons a rest => simp [get_token_balance]
  · cases outcome with
    | exn => simp [get_token_balance]
    | noResult => simp [get_token_balance]
    | result v =>
      simp only [get_token_balance]
      split <;> simp

/-- C9: a first-attempt error that is not a rate-limit error makes the
submission pipeline return the failure sentinel after exactly 1 submission,
with no retry and no backoff sleep. -/
theorem claim_C9_no_retry (t : ℕ → SendOutcome) (confirm cs : Bool) (m : String)
    (h1 : t 1 = .err m) (h2 : rateLimitMsg m = false) :
    send_and_confirm_transaction t confirm cs = (.failure, 1, []) := by
  simp [send_and_confirm_transaction, sendGo, h1, h2]

/-- Witness for C9: a concrete transport refusing the connection. -/
theorem claim_C9_witness :
    send_and_confirm_transaction (fun _ => .err refusedMsg) true false =
      (.failure, 1, []) :=
  claim_C9_no_retry (fun _ => .err refusedMsg) true false refusedMsg rfl rfl

/-- C1 (code bug): `utils.py` calls `asyncio.sleep` in the rate-limit branch
but never imports `asyncio`, so with a transport that rate-limits every
attempt the pipeline makes exactly one submission and then raises `NameError`
from the backoff line — it neither performs 3 attempts nor returns the `False`
sentinel, and no sleep happens. -/
theorem claim_C1_rate_limit_name_error (confirm cs : Bool) :
    send_and_confirm_transaction (fun _ => .err rateLimitText) confirm cs =
      (.nameError, 1, []) := rfl

/-- C3 counterexample: at a top-level exception outcome the process exit
status is 0 — the claim's "exits with a non-zero status" is false. -/
theorem claim_C3_counterexample :
    (topLevel (MainOutcome.exn boomText)).exitCode = 0 ∧
    ¬ (topLevel (MainOutcome.exn boomText)).exitCode ≠ 0 :=
  ⟨rfl, fun h => h rfl⟩

/-- C3 amended: an unhandled exception escaping `main` is caught exactly once
(it does not propagate), the fatal message and the full diagnostic traceback
are logged, and the process exits with status zero. -/
theorem claim_C3_amended (m : String) :
    topLevel (.exn m) =
      ⟨[.printFatal m, .printTraceback m], 0, false⟩ := rfl

def envLowBalance : MainEnv := ⟨fpBalance010, none, none, false⟩

def envHighBalance : MainEnv := ⟨fpBalance020, none, none, false⟩

/-- C6: with the configured buy amount 0.05, `main` aborts before the metadata
upload and the launch call whenever the fetched balance is below the binary64
evaluation of `INITIAL_BUY_SOL + 0.1`, and proceeds past the gate whenever it
is at least that threshold; the doubles for fetched balances of 0.10 and 0.20
lie on the abort and proceed sides respectively. -/
theorem claim_C6_balance_gate (env : MainEnv) :
    (env.balance < buyPlusBuffer →
        MainStep.prepareIpfs ∉ mainTrace env ∧ MainStep.launch ∉ mainTrace env) ∧
    (buyPlusBuffer ≤ env.balance → MainStep.prepareIpfs ∈ mainTrace env) ∧
    fpBalance010 < buyPlusBuffer ∧ buyPlusBuffer ≤ fpBalance020 := by
  refine ⟨?_, ?_, by norm_num [fpBalance010, buyPlusBuffer],
    by norm_num [fpBalance020, buyPlusBuffer]⟩
  · intro h
    have ht : mainTrace env = [.validate, .sslTest, .fetchBalance] := by
      simp [mainTrace, h]
    rw [ht]
    exact ⟨by decide, by decide⟩
  · intro h
    simp [mainTrace, not_lt.mpr h]

/-- Witness for C6: the gate aborts at the 0.10 balance and proceeds at the
0.20 balance. -/
theorem claim_C6_witness :
    MainStep.prepareIpfs ∉ mainTrace envLowBalance ∧
    MainStep.prepareIpfs ∈ mainTrace envHighBalance :=
  ⟨((claim_C6_balance_gate envLowBalance).1
      (by norm_num [envLowBalance, fpBalance010, buyPlusBuffer])).1,
   (claim_C6_balance_gate envHighBalance).2.1
      (by norm_num [envHighBalance, fpBalance020, buyPlusBuffer])⟩

/-- A `json.loads` outcome whose `url` field is falsy: a decode error, a null
`url`, or an empty-string `url`. -/
def jsonUrlFalsy : Option (Option String) → Bool
  | none => true
  | some u => !(pyTruthyStr u)

def cexImageUrl : String := "https://example.com/cat.jpg"

def cexMetaUri : String := "https://meta.example/x"

def cexFailText : String := "upload failed"

def cexEnv : IpfsEnv :=
  ⟨some [1], none, .resp 500 cexFailText none, .resp 200 cexMetaUri none⟩

/-- C2 counterexample: image bytes are resolved from a remote (non-Pinata)
URL, their upload returns HTTP 500, yet `prepare_ipfs` does not return `None`:
the original URL stays truthy, the flow continues to the metadata upload, and
the metadata URI is returned. -/
theorem claim_C2_counterexample :
    prepare_ipfs emptyStr emptyStr emptyStr emptyStr emptyStr emptyStr
        (some cexImageUrl) none none cexEnv = some cexMetaUri ∧
    prepare_ipfs emptyStr emptyStr emptyStr emptyStr emptyStr emptyStr
        (some cexImageUrl) none none cexEnv ≠ none := by
  have h : prepare_ipfs emptyStr emptyStr emptyStr emptyStr emptyStr emptyStr
      (some cexImageUrl) none none cexEnv = some cexMetaUri := by rfl
  exact ⟨h, by rw [h]; simp⟩

/-- C2 amended: `prepare_ipfs` returns `None` whenever the metadata upload
fails (any non-`None` result is exactly a metadata-upload success), on a
transport exception during a performed image upload, and on a failed image
upload when the caller supplied no `image_url` (bytes from `image_data`); but
when the bytes were resolved by downloading a remote non-Pinata `image_url`
and that upload returns a non-200 status, the original URL is retained as the
image and the flow proceeds to the metadata upload, whose result is returned. -/
theorem claim_C2_amended (name symbol description twitter telegram website : String)
    (image_url : Option String) (image_data : Option (List Nat))
    (file : Option String) (env : IpfsEnv) :
    (∀ u, prepare_ipfs name symbol description twitter telegram website
        image_url image_data file env = some u →
        uploadMetaPhase env.metaUpload = some u) ∧
    ((pyTruthyStr image_url && pyStartswith (pyStr image_url) pinataPrefix) = false →
      pyTruthyBytes (dataToUpload image_url image_data file env) = true →
      env.imgUpload = .exn →
      prepare_ipfs name symbol description twitter telegram website
        image_url image_data file env = none) ∧
    (∀ status text jsonUrl,
      pyTruthyStr image_url = false →
      pyTruthyBytes (dataToUpload image_url image_data file env) = true →
      env.imgUpload = .resp status text jsonUrl →
      ((status == 200) = false ∨
        (pyStartswith text httpsPrefix = false ∧ jsonUrlFalsy jsonUrl = true)) →
      prepare_ipfs name symbol description twitter telegram website
        image_url image_data file env = none) ∧
    (∀ status text jsonUrl,
      pyTruthyStr image_url = true →
      pyStartswith (pyStr image_url) pinataPrefix = false →
      pyTruthyBytes image_data = false →
      pyTruthyStr file = false →
      pyTruthyBytes env.downloadResult = true →
      env.imgUpload = .resp status text jsonUrl →
      ((status == 200) = false ∨
        (pyStartswith text httpsPrefix = false ∧ jsonUrl = none)) →
      resolveImage image_url image_data file env = some image_url ∧
      prepare_ipfs name symbol description twitter telegram website
        image_url image_data file env = uploadMetaPhase env.metaUpload) := by
  refine ⟨?_, ?_, ?_, ?_⟩
  · intro u h
    unfold prepare_ipfs at h
    cases hr : resolveImage image_url image_data file env with
    | none => rw [hr] at h; simp at h
    | some iu => rw [hr] at h; exact h
  · intro hpin hdata hexn
    have hres : resolveImage image_url image_data file env = none := by
      simp [resolveImage, hpin, hdata, hexn]
    simp [prepare_ipfs, hres]
  · rintro status text jsonUrl hurl hdata hresp hfail
    have hres : resolveImage image_url image_data file env = none := by
      rcases hfail with hs | ⟨hpre, hj⟩
      · simp [resolveImage, hurl, hdata, hresp, hs]
      · cases jsonUrl with
        | none =>
          by_cases h200 : status = 200 <;>
            simp [resolveImage, hurl, hdata, hresp, hpre, h200]
        | some u =>
          have hu : pyTruthyStr u = false := by
            simpa [jsonUrlFalsy] using hj
          by_cases h200 : status = 200 <;>
            simp [resolveImage, hurl, hdata, hresp, hpre, h200, hu]
    simp [prepare_ipfs, hres]
  · rintro status text jsonUrl hurl hpin hdata hfile hdl hresp hfail
    have hres : resolveImage image_url image_data file env = some image_url := by
      rcases hfail with hs | ⟨hpre, rfl⟩
      · simp [resolveImage, dataToUpload, hurl, hpin, hdata, hfile, hdl, hresp, hs]
      · by_cases h200 : status = 200 <;>
          simp [resolveImage, dataToUpload, hurl, hpin, hdata, hfile, hdl, hresp,
            hpre, h200]
    exact ⟨hres, by simp [prepare_ipfs, hres]⟩

def cexDataEnv : IpfsEnv :=
  ⟨none, none, .resp 500 cexFailText none, .resp 200 cexMetaUri none⟩

def cexFileEnv : IpfsEnv :=
  ⟨none, some [2], .resp 200 cexFailText none, .resp 200 cexMetaUri none⟩

def cexJsonEnv : IpfsEnv :=
  ⟨some [1], none, .resp 200 cexFailText none, .resp 200 cexMetaUri none⟩

def cexFileName : String := "cat.jpg"

/-- Witness for C2 (amended): the failing image upload returns `None` both for
bytes supplied directly as `image_data` with no `image_url` (HTTP 500) and for
bytes read from a `file` with an empty-string `image_url` (200 with malformed
JSON); and the original-URL retention holds at the counterexample's inputs for
a non-200 upload as well as for a 200 response with malformed JSON. -/
theorem claim_C2_witness :
    prepare_ipfs emptyStr emptyStr emptyStr emptyStr emptyStr emptyStr
        none (some [1]) none cexDataEnv = none ∧
    prepare_ipfs emptyStr emptyStr emptyStr emptyStr emptyStr emptyStr
        (some emptyStr) none (some cexFileName) cexFileEnv = none ∧
    resolveImage (some cexImageUrl) none none cexEnv = some (some cexImageUrl) ∧
    resolveImage (some cexImageUrl) none none cexJsonEnv = some (some cexImageUrl) :=
  ⟨(claim_C2_amended emptyStr emptyStr emptyStr emptyStr emptyStr emptyStr
      none (some [1]) none cexDataEnv).2.2.1 500 cexFailText none rfl rfl rfl
      (Or.inl rfl),
   (claim_C2_amended emptyStr emptyStr emptyStr emptyStr emptyStr emptyStr
      (some emptyStr) none (some cexFileName) cexFileEnv).2.2.1 200 cexFailText none
      rfl rfl rfl (Or.inr ⟨by rfl, rfl⟩),
   ((claim_C2_amended emptyStr emptyStr emptyStr emptyStr emptyStr emptyStr
      (some cexImageUrl) none none cexEnv).2.2.2 500 cexFailText none rfl
      (by rfl) rfl rfl rfl rfl (Or.inl rfl)).1,
   ((claim_C2_amended emptyStr emptyStr emptyStr emptyStr emptyStr emptyStr
      (some cexImageUrl) none none cexJsonEnv).2.2.2 200 cexFailText none rfl
      (by rfl) rfl rfl rfl rfl (Or.inr ⟨by rfl, rfl⟩)).1⟩

end BonkMcp
